import Mathlib

/-!
Verification of the WebSub (PubSubHubbub) callback / subscription core of the
`my_portfolio` repository against its natural-language specification.

The authoritative sources (per the spec's §9 note, the HMAC-enforced variant):
  * `src/scripts/testing.py` — `parse_youtube_notification`,
    `verify_webhook_signature`, `_valid_video_id`,
    `trigger_video_processing_workflow`, `handle_websub_callback`.
  * `src/scripts/subscribe_youtube_channels.py` — `subscribe_to_youtube_channels`.

Library calls that are not part of the repository (the standard-library XML
parser `xml.etree.ElementTree.fromstring`, the keyed digest
`hmac.new(secret, body, hashlib.sha1).hexdigest()`, and the outbound HTTP
layer `requests.post`) are modelled as abstract parameters of an explicit
environment record; everything written in the repository itself is translated
directly into executable Lean definitions below.

The signature-verification path can raise: `hmac.compare_digest` accepts
`str` arguments only when both are ASCII and raises `TypeError` otherwise,
the `except (ValueError, AttributeError)` clause in
`verify_webhook_signature` does not catch it, and the call site in
`handle_websub_callback` precedes the handler's `try` block, so the
exception propagates out of the handler.  The complete semantics is given by
the `PyRun`-valued functions `verify_webhook_signature_run` and
`handle_websub_callback_run`; the plain `verify_webhook_signature` and
`handle_websub_callback` describe only the returned responses and agree with
the `_run` semantics on every non-raising input
(`verify_webhook_signature_run_agrees`, `handle_websub_callback_run_agrees`).
-/

namespace Portfolio

/-! ### Python semantics helpers -/

/-- Truthiness of a Python value of type `str | None`:
`None` and the empty string are falsy. -/
def pyTruthyOpt : Option String → Bool
  | none => false
  | some s => !(s == "")

/-- Python's `str(x)` for `x : str | None` as used inside an f-string:
`f"{None}"` renders as `"None"`. -/
def pyStrOfOpt : Option String → String
  | none => "None"
  | some s => s

/-- The characters removed by Python's `str.strip()` with no argument
(ASCII whitespace: space, tab, newline, carriage return, vertical tab,
form feed). -/
def pyIsSpace (c : Char) : Bool :=
  c == ' ' || c == '\t' || c == '\n' || c == '\r' || c == '\x0b' || c == '\x0c'

/-- Python's `str.strip()` on the underlying character list. -/
def pyStripList (cs : List Char) : List Char :=
  ((cs.dropWhile pyIsSpace).reverse.dropWhile pyIsSpace).reverse

/-- Python's `str.strip()`. -/
def pyStrip (s : String) : String :=
  ⟨pyStripList s.data⟩

/-- Split a character list at the first `'='`, keeping everything after it
(including further `'='` characters) intact. -/
def splitFirstEqList : List Char → Option (List Char × List Char)
  | [] => none
  | c :: rest =>
    if c == '=' then
      some ([], rest)
    else
      match splitFirstEqList rest with
      | none => none
      | some (a, b) => some (c :: a, b)

/-- Python's `s.split("=", 1)` followed by unpacking into two variables.
`none` models the `ValueError` raised when the separator is absent. -/
def splitFirstEq (s : String) : Option (String × String) :=
  match splitFirstEqList s.data with
  | none => none
  | some (a, b) => some (⟨a⟩, ⟨b⟩)

/-- A Python `dict[str, str]` (no duplicate keys are ever constructed by the
callers we model; lookup takes the first binding like `dict.get`). -/
abbrev PyDict := List (String × String)

/-- `d.get(k) if d else None` for `d : dict | None` — Python treats both
`None` and the empty dict as falsy. -/
def pyDictGet (d : Option PyDict) (k : String) : Option String :=
  match d with
  | none => none
  | some l => if l.isEmpty then none else l.lookup k

/-! ### Character classes of the two regular expressions in the source -/

/-- Membership in the class `[a-zA-Z0-9_-]` (ASCII, as written in both
regexes of the source). -/
def isIdChar (c : Char) : Bool :=
  ('a' ≤ c && c ≤ 'z') || ('A' ≤ c && c ≤ 'Z') || ('0' ≤ c && c ≤ '9')
    || c == '_' || c == '-'

/-- `[a-zA-Z0-9_-]{1,128}` matched against the whole character list. -/
def challengeCore (cs : List Char) : Bool :=
  cs.all isIdChar && decide (1 ≤ cs.length) && decide (cs.length ≤ 128)

/-- Python's `re.match(r"^[a-zA-Z0-9_-]{1,128}$", s)` as a Boolean.
In Python (no `re.MULTILINE`), `$` matches at the end of the string and
also just before a newline at the end of the string, so a single trailing
`'\n'` after 1–128 class characters is accepted. -/
def pyMatchChallenge (s : String) : Bool :=
  challengeCore s.data ||
    (if s.data.getLast? = some '\n' then challengeCore s.data.dropLast
     else false)

/-- `re.fullmatch(r"[A-Za-z0-9_-]{6,20}", s)`: `fullmatch` anchors at the
true end of the string, so no trailing-newline allowance applies. -/
def fullmatchVideoId (s : String) : Bool :=
  s.data.all isIdChar && decide (6 ≤ s.data.length) && decide (s.data.length ≤ 20)

/-- `_valid_video_id(video_id)` from `src/scripts/testing.py`:
`bool(re.fullmatch(r"[A-Za-z0-9_-]{6,20}", video_id or ""))`.
(For a `str` argument, `video_id or ""` is the identity except that it maps
`""` to `""`, so it is the identity; the `None` case is handled by the
caller's first guard and by `fullmatchVideoId ""` being `false`.) -/
def valid_video_id (video_id : String) : Bool :=
  fullmatchVideoId video_id

/-! ### XML element trees

`xml.etree.ElementTree` represents a parsed document as a tree of elements,
each with a namespace-expanded tag, an attribute mapping, optional text and a
list of children.  `ET.fromstring` itself is standard-library code, modelled
abstractly (`Env.fromstring` below); the repository's own `find` queries over
the resulting tree are translated here. -/

inductive XElem where
  | mk (ns : String) (tag : String) (attrs : PyDict)
       (text : Option String) (children : List XElem)

def XElem.ns : XElem → String | .mk n _ _ _ _ => n
def XElem.tag : XElem → String | .mk _ t _ _ _ => t
def XElem.attrs : XElem → PyDict | .mk _ _ a _ _ => a
def XElem.text : XElem → Option String | .mk _ _ _ t _ => t
def XElem.children : XElem → List XElem | .mk _ _ _ _ c => c

/-- `elem.get(attr)`: attribute lookup, `None` when absent. -/
def XElem.get (e : XElem) (k : String) : Option String :=
  e.attrs.lookup k

/-- `elem.find("pfx:local", namespaces)` for a single path step: the first
direct child whose expanded tag is `{nsUri}local`. -/
def findChild (e : XElem) (nsUri loc : String) : Option XElem :=
  e.children.find? (fun c => c.ns == nsUri && c.tag == loc)

/-- `elem.find('pfx:local[@attr="val"]', namespaces)`: the first direct child
with the given expanded tag whose attribute `attr` equals `val`. -/
def findChildAttr (e : XElem) (nsUri loc attr val : String) : Option XElem :=
  e.children.find?
    (fun c => c.ns == nsUri && c.tag == loc && (c.get attr == some val))

/-- `elem.find("a:x/b:y", namespaces)`: ElementTree's path search collects all
direct children matching the first step, then returns the first child of any
of those matching the second step (document order). -/
def findPath2 (e : XElem) (ns1 loc1 ns2 loc2 : String) : Option XElem :=
  ((e.children.filter (fun c => c.ns == ns1 && c.tag == loc1)).flatMap
      (fun c => c.children.filter (fun d => d.ns == ns2 && d.tag == loc2))).head?

/-- The Atom feed namespace used in `parse_youtube_notification`. -/
def atomNS : String := "http://www.w3.org/2005/Atom"

/-- The YouTube extension namespace used in `parse_youtube_notification`. -/
def ytNS : String := "http://www.youtube.com/xml/schemas/2015"

/-! ### The Video Event record -/

/-- The `video_data` dict built by `parse_youtube_notification`.  All fields
are strings except `url`, which is `link.get("href")` when an alternate link
element is present and can therefore be Python `None` (modelled as `none`). -/
structure VideoData where
  video_id : String
  title : String
  url : Option String
  channel : String
  published : String
deriving DecidableEq, Repr

/-- `e.text.strip() if e is not None and e.text else default` — the guarded
field extraction used for four of the five fields of `video_data`. -/
def textOr (e : Option XElem) (default : String) : String :=
  match e with
  | none => default
  | some el =>
    match el.text with
    | none => default
    | some t => if t == "" then default else pyStrip t

/-- The body of `parse_youtube_notification` after `ET.fromstring` succeeded,
operating on the parsed root element (`src/scripts/testing.py` lines 24–64;
byte-identical logic in `src/website.py` lines 221–251).

Returns `none` when no `atom:entry` child is found, and also when the `url`
field's fallback `f"https://www.youtube.com/watch?v={video_id.text}"` is
evaluated with `video_id is None`: accessing `.text` on `None` raises
`AttributeError`, which the function's `except Exception` handler converts to
`return None`. -/
def parse_entry (root : XElem) : Option VideoData :=
  match findChild root atomNS "entry" with
  | none => none
  | some entry =>
    let video_id := findChild entry ytNS "videoId"
    let title := findChild entry atomNS "title"
    let link := findChildAttr entry atomNS "link" "rel" "alternate"
    let author := findPath2 entry atomNS "author" atomNS "name"
    let published := findChild entry atomNS "published"
    let urlOrErr : Option (Option String) :=
      match link with
      | some l => some (l.get "href")
      | none =>
        match video_id with
        | some v =>
          some (some ("https://www.youtube.com/watch?v=" ++ pyStrOfOpt v.text))
        | none => none
    match urlOrErr with
    | none => none
    | some url =>
      some { video_id := textOr video_id "Unknown"
             title := textOr title "No title"
             url := url
             channel := textOr author "Unknown"
             published := textOr published "Unknown" }

/-! ### Process environment and abstracted library calls -/

/-- The process environment and the standard-library calls the callback path
depends on.

* `webhookSecret` models `os.getenv("WEBHOOK_HMAC_SECRET")` (`none` = unset).
* `hmacSha1Hex secret body` models
  `hmac.new(secret.encode("utf-8"), body.encode("utf-8"), hashlib.sha1).hexdigest()`,
  the lowercase-hex HMAC-SHA1 of `body` keyed by `secret` (standard-library
  code, abstracted as a function).
* `fromstring` models `xml.etree.ElementTree.fromstring`: `none` stands for a
  raised `ET.ParseError` on malformed input, `some root` for the parsed tree. -/
structure Env where
  webhookSecret : Option String
  hmacSha1Hex : String → String → String
  fromstring : String → Option XElem

/-- `parse_youtube_notification(xml_data)` (`src/scripts/testing.py` lines
16–71): parse the body as XML (any raised error, including the `TypeError`
for a `None` body, is caught and converted to `None`), then extract the
entry as in `parse_entry`. -/
def parse_youtube_notification (env : Env) (xml_data : Option String) :
    Option VideoData :=
  match xml_data with
  | none => none
  | some s =>
    match env.fromstring s with
    | none => none
    | some root => parse_entry root

/-- ASCII-only check on a string: all code points below 128.
`hmac.compare_digest` accepts `str` arguments only when both are ASCII
("ASCII only, as e.g. returned by HMAC.hexdigest()") and raises `TypeError`
otherwise. -/
def strIsAscii (s : String) : Bool :=
  s.data.all (fun c => c.toNat < 128)

/-- The outcome of running a Python function that either returns a value or
lets an uncaught exception propagate to its caller. -/
inductive PyRun (α : Type) where
  | ret (val : α)
  | raised
deriving DecidableEq, Repr

/-- `verify_webhook_signature(body, signature_header)`
(`src/scripts/testing.py` lines 74–116), complete semantics.

`body : Option String` models the `str | None` value the caller passes
(`request_data`); when it is `None`, `body.encode("utf-8")` raises
`AttributeError`, caught by the `except (ValueError, AttributeError)` clause
and converted to `False`.  A header without `"="` raises `ValueError` at the
unpacking, likewise converted to `False`.  When the comparison
`hmac.compare_digest(provided_signature, expected_signature)` (line 105) is
reached with a non-ASCII argument it raises `TypeError`, which the except
clause does NOT catch, so the function raises instead of returning
(`PyRun.raised`); the expected digest is the abstract `hmacSha1Hex` output
(always lowercase hex, hence ASCII, for the real library function). -/
def verify_webhook_signature_run (env : Env) (body : Option String)
    (signature_header : String) : PyRun Bool :=
  if !(pyTruthyOpt env.webhookSecret) then
    .ret false
  else
    match splitFirstEq signature_header with
    | none => .ret false
    | some (algorithm, provided_signature) =>
      if !(algorithm == "sha1") then
        .ret false
      else
        match body with
        | none => .ret false
        | some b =>
          if !(strIsAscii provided_signature)
              || !(strIsAscii
                    (env.hmacSha1Hex (env.webhookSecret.getD "") b)) then
            .raised
          else
            .ret (provided_signature
              == env.hmacSha1Hex (env.webhookSecret.getD "") b)

/-- The returned-response restriction of `verify_webhook_signature_run`:
identical except that the path on which `hmac.compare_digest` raises an
uncaught `TypeError` is collapsed to `false`.  It agrees with the complete
semantics on every non-raising input
(`verify_webhook_signature_run_agrees`); it is kept because several claims
quantify only over returned responses. -/
def verify_webhook_signature (env : Env) (body : Option String)
    (signature_header : String) : Bool :=
  if !(pyTruthyOpt env.webhookSecret) then
    false
  else
    match splitFirstEq signature_header with
    | none => false
    | some (algorithm, provided_signature) =>
      if !(algorithm == "sha1") then
        false
      else
        match body with
        | none => false
        | some b =>
          provided_signature == env.hmacSha1Hex (env.webhookSecret.getD "") b

/-! ### The callback handler -/

/-- The observable outcome of one `handle_websub_callback` invocation.

`body`/`status` are the HTTP response (a bare Python string return means
status 200 under Flask).  `parseAttempted`, `parsed` and `dispatched` expose
the handler's internal call trace: whether `parse_youtube_notification` was
invoked, what it returned, and the list of events passed to
`trigger_video_processing_workflow` (always `[]` in the source, where that
call is commented out). -/
structure HandlerOutcome where
  body : String
  status : Nat
  parseAttempted : Bool
  parsed : Option VideoData
  dispatched : List VideoData
deriving DecidableEq, Repr

/-- `handle_websub_callback(request_method, request_args, request_data,
request_headers)` (`src/scripts/testing.py` lines 244–325), complete
semantics.

GET: echo a pattern-valid `hub.challenge` (200), reject an invalid one (400),
answer "OK" when the parameter is absent or empty.  POST: 503 when the secret
is unconfigured, 401 when the `X-Hub-Signature` header is missing (or empty —
Python truthiness), then call `verify_webhook_signature`: if that call raises
the uncaught `TypeError` (the call at line 296 precedes the `try` block
starting at line 302), the exception propagates out of the handler
(`PyRun.raised`; a Flask deployment surfaces it as a 500); if it returns
`False` answer 403; otherwise parse the body inside the catch-all `try` and
answer 200 "OK" regardless of the parse outcome.  The
`trigger_video_processing_workflow(video_data)` call on the success path is
commented out in the source, so no dispatch ever occurs.  Any other method:
405. -/
def handle_websub_callback_run (env : Env) (request_method : String)
    (request_args : Option PyDict) (request_data : Option String)
    (request_headers : Option PyDict) : PyRun HandlerOutcome :=
  if request_method == "GET" then
    .ret (match pyDictGet request_args "hub.challenge" with
    | some c =>
      if c == "" then
        ⟨"OK", 200, false, none, []⟩
      else if pyMatchChallenge c then
        ⟨c, 200, false, none, []⟩
      else
        ⟨"Invalid challenge", 400, false, none, []⟩
    | none => ⟨"OK", 200, false, none, []⟩)
  else if request_method == "POST" then
    let hub_signature := pyDictGet request_headers "X-Hub-Signature"
    if !(pyTruthyOpt env.webhookSecret) then
      .ret ⟨"Server HMAC not configured", 503, false, none, []⟩
    else if !(pyTruthyOpt hub_signature) then
      .ret ⟨"Signature required", 401, false, none, []⟩
    else
      match verify_webhook_signature_run env request_data
          (hub_signature.getD "") with
      | .raised => .raised
      | .ret b =>
        if !b then
          .ret ⟨"Forbidden", 403, false, none, []⟩
        else
          .ret ⟨"OK", 200, true,
            parse_youtube_notification env request_data, []⟩
  else
    .ret ⟨"Method not allowed", 405, false, none, []⟩

/-- The returned-response restriction of `handle_websub_callback_run`:
identical except that the propagated `TypeError` path of the verification
call is collapsed into the 403 branch.  It agrees with the complete
semantics on every non-raising input (`handle_websub_callback_run_agrees`);
it is kept because several claims quantify only over returned responses
(the GET branch and the verified-POST branch cannot raise). -/
def handle_websub_callback (env : Env) (request_method : String)
    (request_args : Option PyDict) (request_data : Option String)
    (request_headers : Option PyDict) : HandlerOutcome :=
  if request_method == "GET" then
    match pyDictGet request_args "hub.challenge" with
    | some c =>
      if c == "" then
        ⟨"OK", 200, false, none, []⟩
      else if pyMatchChallenge c then
        ⟨c, 200, false, none, []⟩
      else
        ⟨"Invalid challenge", 400, false, none, []⟩
    | none => ⟨"OK", 200, false, none, []⟩
  else if request_method == "POST" then
    let hub_signature := pyDictGet request_headers "X-Hub-Signature"
    if !(pyTruthyOpt env.webhookSecret) then
      ⟨"Server HMAC not configured", 503, false, none, []⟩
    else if !(pyTruthyOpt hub_signature) then
      ⟨"Signature required", 401, false, none, []⟩
    else if !(verify_webhook_signature env request_data
               (hub_signature.getD "")) then
      ⟨"Forbidden", 403, false, none, []⟩
    else
      ⟨"OK", 200, true, parse_youtube_notification env request_data, []⟩
  else
    ⟨"Method not allowed", 405, false, none, []⟩

/-! ### The downstream dispatcher -/

/-- The GitHub-side environment `trigger_video_processing_workflow` depends
on.  `appId`, `installationId`, `privateKeyRaw` model the three
`os.getenv` reads; `tokenResult` models the outcome of the installation
access-token HTTP exchange (`_get_installation_token`): the token string on
a 201 response carrying one, otherwise `none`. -/
structure GithubEnv where
  appId : Option String
  installationId : Option String
  privateKeyRaw : Option String
  tokenResult : Option String

/-- The outbound HTTP calls `trigger_video_processing_workflow` can make, in
order: the installation-token exchange and the repository-dispatch POST. -/
inductive OutCall where
  | tokenExchange
  | dispatchPost (payload : VideoData)
deriving DecidableEq, Repr

/-- `_load_private_key()` (`src/scripts/testing.py` lines 119–128): `None`
when unset or empty; otherwise the key with literal `\n` escape sequences
replaced by newlines. -/
def replaceEscapedNewlines : List Char → List Char
  | [] => []
  | '\\' :: 'n' :: rest => '\n' :: replaceEscapedNewlines rest
  | c :: rest => c :: replaceEscapedNewlines rest

def load_private_key (genv : GithubEnv) : Option String :=
  match genv.privateKeyRaw with
  | none => none
  | some k => if k == "" then none else some ⟨replaceEscapedNewlines k.data⟩

/-- `_get_dispatch_token()` (`src/scripts/testing.py` lines 163–186): abort
without any outbound call when App ID, Installation ID or private key is
missing; otherwise perform the token exchange (one outbound call) and return
its result.  Returns the outbound-call trace together with the token. -/
def get_dispatch_token (genv : GithubEnv) : List OutCall × Option String :=
  if !(pyTruthyOpt genv.appId) || !(pyTruthyOpt genv.installationId)
      || !(pyTruthyOpt (load_private_key genv)) then
    ([], none)
  else
    ([OutCall.tokenExchange], genv.tokenResult)

/-- `trigger_video_processing_workflow(video_data)`
(`src/scripts/testing.py` lines 196–241), with the outbound HTTP calls as the
observable result.  `video_data = none` models a Python `None` (or falsy)
argument.  Guards, in source order: reject `None`/`"Unknown"` video ids, then
reject ids failing `_valid_video_id`; only then obtain a token (first
outbound call) and, if one was returned, send the dispatch POST (second
outbound call).  The dispatch response status only affects logging. -/
def trigger_video_processing_workflow (genv : GithubEnv)
    (video_data : Option VideoData) : List OutCall :=
  match video_data with
  | none => []
  | some vd =>
    if vd.video_id == "Unknown" then
      []
    else if !(valid_video_id vd.video_id) then
      []
    else
      match get_dispatch_token genv with
      | (calls, none) => calls
      | (calls, some _) => calls ++ [OutCall.dispatchPost vd]

/-! ### The subscription manager -/

/-- One channel of the static configuration list. -/
structure Channel where
  name : String
  channel_id : String
deriving DecidableEq, Repr

/-- The static channel list of `subscribe_to_youtube_channels`
(`src/scripts/subscribe_youtube_channels.py` lines 32–44). -/
def channels_to_subscribe : List Channel :=
  [ ⟨"Lucas Collar", "UCAh4Y2AOSMwmatv9ktmhAAQ"⟩,
    ⟨"Alexandre Ernst", "UCBgSy_cNIoGYnyLjmKHQOAg"⟩,
    ⟨"Lucas Dias", "UCIMDIPyS1vsHBa4t9wlN8IQ"⟩,
    ⟨"Canal do Vaguinha", "UCkoqa3e5oFNkEGvgrxLAmrQ"⟩,
    ⟨"Careca de Saber", "UCUaNjDcaVliZyWd-MgsDAzw"⟩,
    ⟨"César Cidade Dias", "UC-vcAXksTA21wp1iN4ZGv6Q"⟩,
    ⟨"Cristiano Oliveira", "UC66qTkwGt0VOzejqDmzQyjg"⟩,
    ⟨"A Dupla", "UCRbfE8wK0_f5BPXtH424G_Q"⟩,
    ⟨"JB Filho Repórter", "UCkPxmeuHR2EJR8DJpX8utMQ"⟩,
    ⟨"Leonardo Meneghetti", "UCZqLwvgBgcSV5onlSrxkjQQ"⟩,
    ⟨"Marinho Saldanha", "UC7a6C6H12xIAYZUKa_f9GKQ"⟩ ]

/-- The outcome of one `requests.post` to the hub, as seen by the loop body:
either an HTTP response with a status code, or a raised exception (timeout,
connection failure, …) caught by the per-channel `except`. -/
inductive HubResult where
  | status (code : Nat)
  | exc
deriving DecidableEq, Repr

/-- Whether one hub result is counted as success by the loop body
(`response.status_code == 202`). -/
def hubSuccess : HubResult → Bool
  | .status code => code == 202
  | .exc => false

/-- The subscription loop (`for channel in channels_to_subscribe`) threading
the `all_successful` flag.  `hub i` is the hub's behaviour on the request for
the `i`-th channel; the returned list is the trace of requests actually
attempted, in order. -/
def subscribeLoop (hub : Nat → HubResult) :
    List Channel → Nat → Bool → List HubResult × Bool
  | [], _, all_successful => ([], all_successful)
  | _ :: rest, i, all_successful =>
    let r := hub i
    let next := subscribeLoop hub rest (i + 1)
        (if hubSuccess r then all_successful else false)
    (r :: next.1, next.2)

/-- `subscribe_to_youtube_channels()`
(`src/scripts/subscribe_youtube_channels.py` lines 23–87), parameterised by
the environment secret and the hub's behaviour.  Returns the trace of hub
requests attempted and the Boolean result. -/
def subscribe_to_youtube_channels (webhookSecret : Option String)
    (hub : Nat → HubResult) : List HubResult × Bool :=
  if !(pyTruthyOpt webhookSecret) then
    ([], false)
  else
    subscribeLoop hub channels_to_subscribe 0 true

/-! ### Concrete exemplar data used by witnesses and counterexamples -/

/-- A fully populated Atom entry, as in the spec's §8 round-trip example. -/
def fullEntryX : XElem :=
  .mk atomNS "entry" [] none
    [ .mk ytNS "videoId" [] (some "abc123") [],
      .mk atomNS "title" [] (some "Test") [],
      .mk atomNS "link" [("rel", "alternate"), ("href", "https://x/abc123")]
        none [],
      .mk atomNS "author" [] none [.mk atomNS "name" [] (some "Chan") []],
      .mk atomNS "published" [] (some "2024-01-01T00:00:00Z") [] ]

/-- A feed whose single entry is fully populated. -/
def rootFull : XElem := .mk atomNS "feed" [] none [fullEntryX]

/-- A feed whose single entry has no sub-elements at all. -/
def rootBareEntry : XElem := .mk atomNS "feed" [] none [.mk atomNS "entry" [] none []]

/-- The Video Event `parse_entry` extracts from `rootFull`. -/
def vidFull : VideoData :=
  ⟨"abc123", "Test", some "https://x/abc123", "Chan", "2024-01-01T00:00:00Z"⟩

/-- An environment with a configured secret, a constant digest function and a
parser that always yields `rootFull`. -/
def envFull : Env := ⟨some "s", fun _ _ => "d", fun _ => some rootFull⟩

/-- An environment whose parser always yields the bare-entry feed. -/
def envBare : Env := ⟨some "s", fun _ _ => "d", fun _ => some rootBareEntry⟩

/-! ### Agreement of the complete and the returned-response semantics -/

@[simp] lemma pyTruthyOpt_none : pyTruthyOpt none = false := rfl

@[simp] lemma pyTruthyOpt_some (s : String) :
    pyTruthyOpt (some s) = !(s == "") := rfl

/-- The complete semantics either raises or returns exactly what the
returned-response restriction computes. -/
lemma verify_webhook_signature_run_agrees (env : Env) (body : Option String)
    (header : String) :
    verify_webhook_signature_run env body header = PyRun.raised
    ∨ verify_webhook_signature_run env body header
        = PyRun.ret (verify_webhook_signature env body header) := by
  unfold verify_webhook_signature_run verify_webhook_signature
  repeat' split
  all_goals simp_all

/-- The complete handler semantics either raises or returns exactly what the
returned-response restriction computes. -/
lemma handle_websub_callback_run_agrees (env : Env) (method : String)
    (args : Option PyDict) (data : Option String)
    (headers : Option PyDict) :
    handle_websub_callback_run env method args data headers = PyRun.raised
    ∨ handle_websub_callback_run env method args data headers
        = PyRun.ret (handle_websub_callback env method args data headers) := by
  unfold handle_websub_callback_run handle_websub_callback
  by_cases hg : (method == "GET") = true
  · simp [hg]
  · simp only [hg, if_false, Bool.not_eq_true] at hg ⊢
    by_cases hp : (method == "POST") = true
    · simp only [hg, hp, if_true, Bool.false_eq_true, if_false]
      by_cases hsec : (!pyTruthyOpt env.webhookSecret) = true
      · simp [hsec]
      · simp only [Bool.not_eq_true] at hsec
        simp only [hsec, Bool.false_eq_true, if_false]
        by_cases hsig :
            (!pyTruthyOpt (pyDictGet headers "X-Hub-Signature")) = true
        · simp [hsig]
        · simp only [Bool.not_eq_true] at hsig
          simp only [hsig, Bool.false_eq_true, if_false]
          rcases verify_webhook_signature_run_agrees env data
              ((pyDictGet headers "X-Hub-Signature").getD "") with hv | hv
          · rw [hv]
            exact Or.inl rfl
          · rw [hv]
            cases hb : verify_webhook_signature env data
                ((pyDictGet headers "X-Hub-Signature").getD "") <;> simp
    · simp [hg, hp]

/-! ### C2 — the signature verifier (corrected: `hmac.compare_digest` raises
an uncaught `TypeError` on non-ASCII digests) -/

/-- Characterization of a verification that returns `true`: the digest part
must also pass the ASCII check guarding `hmac.compare_digest`. -/
lemma verify_run_ret_true_iff (env : Env) (body header : String) :
    verify_webhook_signature_run env (some body) header = PyRun.ret true ↔
      (pyTruthyOpt env.webhookSecret = true ∧
        ∃ digest, splitFirstEq header = some ("sha1", digest) ∧
          strIsAscii digest = true ∧
          digest = env.hmacSha1Hex (env.webhookSecret.getD "") body) := by
  unfold verify_webhook_signature_run
  cases hsec : pyTruthyOpt env.webhookSecret with
  | false => simp
  | true =>
    cases hsp : splitFirstEq header with
    | none => simp
    | some p =>
      obtain ⟨alg, dig⟩ := p
      by_cases halg : alg = "sha1"
      · subst halg
        by_cases hA : strIsAscii dig = true
        · by_cases hB : strIsAscii
              (env.hmacSha1Hex (env.webhookSecret.getD "") body) = true
          · simp [hA, hB, beq_iff_eq]
          · rw [Bool.not_eq_true] at hB
            simp only [hA, hB, Bool.not_true, Bool.not_false, Bool.or_true,
              if_true, beq_self_eq_true, Option.some.injEq, Prod.mk.injEq,
              true_and]
            constructor
            · intro h
              exact absurd h (by simp)
            · rintro ⟨digest, ⟨-, rfl⟩, hAd, hEq⟩
              rw [hEq] at hAd
              rw [hAd] at hB
              exact absurd hB (by simp)
        · rw [Bool.not_eq_true] at hA
          simp [hA]
      · simp [halg, beq_iff_eq]

/-- Characterization of the raising path: the comparison is reached and one
of its two string arguments is non-ASCII. -/
lemma verify_run_raised_iff (env : Env) (body header : String) :
    verify_webhook_signature_run env (some body) header = PyRun.raised ↔
      (pyTruthyOpt env.webhookSecret = true ∧
        ∃ digest, splitFirstEq header = some ("sha1", digest) ∧
          (strIsAscii digest = false ∨
           strIsAscii (env.hmacSha1Hex (env.webhookSecret.getD "") body)
             = false)) := by
  unfold verify_webhook_signature_run
  cases hsec : pyTruthyOpt env.webhookSecret with
  | false => simp
  | true =>
    cases hsp : splitFirstEq header with
    | none => simp
    | some p =>
      obtain ⟨alg, dig⟩ := p
      by_cases halg : alg = "sha1"
      · subst halg
        by_cases hA : strIsAscii dig = true
        · by_cases hB : strIsAscii
              (env.hmacSha1Hex (env.webhookSecret.getD "") body) = true
          · simp [hA, hB]
          · rw [Bool.not_eq_true] at hB
            simp [hA, hB]
        · rw [Bool.not_eq_true] at hA
          simp [hA]
      · simp [halg]

/-- C2 counterexample: with the secret configured and an ASCII expected
digest, the header `"sha1=é"` — separator present, algorithm `sha1`, digest
part non-ASCII — makes `hmac.compare_digest` raise `TypeError`, which the
`except (ValueError, AttributeError)` clause does not catch: the function
raises instead of returning, so the claim's total fail-closed
characterization (always returning a Boolean, `false` on any bad input) is
false of the program. -/
theorem verify_webhook_signature_typeerror_counterexample :
    strIsAscii "é" = false
    ∧ verify_webhook_signature_run envFull (some "body") "sha1=é"
        = PyRun.raised
    ∧ verify_webhook_signature_run envFull (some "body") "sha1=é"
        ≠ PyRun.ret false
    ∧ verify_webhook_signature_run envFull (some "body") "sha1=é"
        ≠ PyRun.ret true := by
  decide

/-- C2 (amended): `verify_webhook_signature` returns `true` exactly when the
secret is configured, the header splits at the first `'='` into algorithm
`"sha1"` and a digest part that is ASCII and equals the keyed lowercase-hex
digest of the body under the secret; it returns `false` when the separator
is absent, when the algorithm is not `"sha1"`, and when the secret is not
configured; but when the digest comparison is reached with a non-ASCII
digest part (or a non-ASCII expected digest), `hmac.compare_digest` raises a
`TypeError` that the except clause does not catch, and the function raises
instead of returning. -/
theorem verify_webhook_signature_run_spec (env : Env) (body header : String) :
    (verify_webhook_signature_run env (some body) header = PyRun.ret true ↔
      (pyTruthyOpt env.webhookSecret = true ∧
        ∃ digest, splitFirstEq header = some ("sha1", digest) ∧
          strIsAscii digest = true ∧
          digest = env.hmacSha1Hex (env.webhookSecret.getD "") body))
    ∧ (splitFirstEq header = none →
        verify_webhook_signature_run env (some body) header
          = PyRun.ret false)
    ∧ (∀ alg digest, splitFirstEq header = some (alg, digest) →
        alg ≠ "sha1" →
        verify_webhook_signature_run env (some body) header
          = PyRun.ret false)
    ∧ (pyTruthyOpt env.webhookSecret = false →
        verify_webhook_signature_run env (some body) header
          = PyRun.ret false)
    ∧ (verify_webhook_signature_run env (some body) header = PyRun.raised ↔
      (pyTruthyOpt env.webhookSecret = true ∧
        ∃ digest, splitFirstEq header = some ("sha1", digest) ∧
          (strIsAscii digest = false ∨
           strIsAscii (env.hmacSha1Hex (env.webhookSecret.getD "") body)
             = false))) := by
  refine ⟨verify_run_ret_true_iff env body header, ?_, ?_, ?_,
    verify_run_raised_iff env body header⟩
  · intro hsp
    unfold verify_webhook_signature_run
    cases hsec : pyTruthyOpt env.webhookSecret <;> simp [hsp]
  · intro alg digest had hne
    unfold verify_webhook_signature_run
    cases hsec : pyTruthyOpt env.webhookSecret <;>
      simp [had, beq_iff_eq, hne]
  · intro hsec
    unfold verify_webhook_signature_run
    simp [hsec]

/-- Witness for C2 (amended) at concrete inputs: with secret `"s"`, body
`"body"` and a digest function returning `"d"`, the header `"sha1=d"`
verifies (returns `true`). -/
theorem verify_webhook_signature_run_spec_witness :
    verify_webhook_signature_run envFull (some "body") "sha1=d"
      = PyRun.ret true :=
  ((verify_webhook_signature_run_spec envFull "body" "sha1=d").1).mpr
    ⟨by decide, "d", by decide, by decide, by decide⟩

/-! ### C1 — the POST gate chain of the callback handler (corrected: a
raising verification propagates instead of answering 403) -/

/-- C1 counterexample: a POST with configured secret and header
`"sha1=zé"` — verification neither succeeds nor returns `false`: the
non-ASCII digest part makes `hmac.compare_digest` raise `TypeError`, and
since the verify call (testing.py line 296) precedes the handler's `try`
block (line 302), the handler raises too; the claimed 403 response is never
produced. -/
theorem websub_post_gates_typeerror_counterexample :
    verify_webhook_signature_run envFull (some "notif") "sha1=zé"
        ≠ PyRun.ret true
    ∧ handle_websub_callback_run envFull "POST" none (some "notif")
        (some [("X-Hub-Signature", "sha1=zé")]) = PyRun.raised
    ∧ (PyRun.raised : PyRun HandlerOutcome)
        ≠ PyRun.ret ⟨"Forbidden", 403, false, none, []⟩ := by
  decide

/-- C1 (amended): for every POST invocation, an unconfigured secret answers
503; with a configured secret, an absent `X-Hub-Signature` header answers
401; with both present, a verification that returns `false` answers 403,
while a verification that raises (uncaught `TypeError` on the non-ASCII
digest comparison) makes the handler raise, producing no response; and the
parser is reached only when all three gates pass with verification
returning `true`. -/
theorem websub_post_gates_run (env : Env) (args : Option PyDict)
    (data : Option String) (headers : Option PyDict) :
    (pyTruthyOpt env.webhookSecret = false →
      handle_websub_callback_run env "POST" args data headers
        = PyRun.ret ⟨"Server HMAC not configured", 503, false, none, []⟩)
    ∧ (pyTruthyOpt env.webhookSecret = true →
        pyDictGet headers "X-Hub-Signature" = none →
        handle_websub_callback_run env "POST" args data headers
          = PyRun.ret ⟨"Signature required", 401, false, none, []⟩)
    ∧ (∀ sig, pyTruthyOpt env.webhookSecret = true →
        pyDictGet headers "X-Hub-Signature" = some sig → sig ≠ "" →
        verify_webhook_signature_run env data sig = PyRun.ret false →
        handle_websub_callback_run env "POST" args data headers
          = PyRun.ret ⟨"Forbidden", 403, false, none, []⟩)
    ∧ (∀ sig, pyTruthyOpt env.webhookSecret = true →
        pyDictGet headers "X-Hub-Signature" = some sig → sig ≠ "" →
        verify_webhook_signature_run env data sig = PyRun.raised →
        handle_websub_callback_run env "POST" args data headers
          = PyRun.raised)
    ∧ (∀ out, handle_websub_callback_run env "POST" args data headers
          = PyRun.ret out → out.parseAttempted = true →
        pyTruthyOpt env.webhookSecret = true ∧
        ∃ sig, pyDictGet headers "X-Hub-Signature" = some sig ∧ sig ≠ "" ∧
          verify_webhook_signature_run env data sig = PyRun.ret true) := by
  unfold handle_websub_callback_run
  refine ⟨?_, ?_, ?_, ?_, ?_⟩
  · intro hsec
    simp [hsec]
  · intro hsec hhdr
    simp [hsec, hhdr]
  · intro sig hsec hhdr hne hver
    simp [hsec, hhdr, hver, beq_iff_eq, hne]
  · intro sig hsec hhdr hne hver
    simp [hsec, hhdr, hver, beq_iff_eq, hne]
  · intro out hout hatt
    by_cases hsec : pyTruthyOpt env.webhookSecret
    · cases hhdr : pyDictGet headers "X-Hub-Signature" with
      | none =>
        simp [hsec, hhdr] at hout
        rw [← hout] at hatt
        exact Bool.noConfusion hatt
      | some sig =>
        by_cases hne : sig = ""
        · subst hne
          simp [hsec, hhdr] at hout
          rw [← hout] at hatt
          exact Bool.noConfusion hatt
        · cases hver : verify_webhook_signature_run env data sig with
          | raised =>
            simp [hsec, hhdr, beq_iff_eq, hne, hver] at hout
          | ret b =>
            cases b with
            | false =>
              simp [hsec, hhdr, beq_iff_eq, hne, hver] at hout
              rw [← hout] at hatt
              exact Bool.noConfusion hatt
            | true => exact ⟨hsec, sig, rfl, hne, hver⟩
    · rw [Bool.not_eq_true] at hsec
      simp [hsec] at hout
      rw [← hout] at hatt
      exact Bool.noConfusion hatt

/-- Witness for C1 (amended) at concrete inputs: with an unconfigured secret
the response is 503; with the configured environment and no header it is
401; with a wrong (ASCII) digest it is 403. -/
theorem websub_post_gates_run_witness :
    handle_websub_callback_run ⟨none, fun _ _ => "d", fun _ => none⟩ "POST"
        none (some "b") none
      = PyRun.ret ⟨"Server HMAC not configured", 503, false, none, []⟩
    ∧ handle_websub_callback_run envFull "POST" none (some "b") none
      = PyRun.ret ⟨"Signature required", 401, false, none, []⟩
    ∧ handle_websub_callback_run envFull "POST" none (some "b")
        (some [("X-Hub-Signature", "sha1=wrong")])
      = PyRun.ret ⟨"Forbidden", 403, false, none, []⟩ :=
  ⟨(websub_post_gates_run ⟨none, fun _ _ => "d", fun _ => none⟩ none
      (some "b") none).1 (by decide),
   (websub_post_gates_run envFull none (some "b") none).2.1
      (by decide) (by decide),
   (websub_post_gates_run envFull none (some "b")
      (some [("X-Hub-Signature", "sha1=wrong")])).2.2.1 "sha1=wrong"
      (by decide) (by decide) (by decide) (by decide)⟩

/-! ### C3 — GET challenge validation (corrected: Python `$` accepts one
trailing newline) -/

/-- C3 counterexample: the challenge `"ab\n"` contains a newline — a
character outside `[A-Za-z0-9_-]` — yet the handler answers 200 and echoes
it, because Python's `re.match(r"^[a-zA-Z0-9_-]{1,128}$", ...)` lets `$`
match just before a final newline.  The claim's `400` does not happen. -/
theorem websub_get_challenge_newline_counterexample :
    ('\n' ∈ "ab\n".data ∧ isIdChar '\n' = false) ∧
      handle_websub_callback envFull "GET" (some [("hub.challenge", "ab\n")])
          none none = ⟨"ab\n", 200, false, none, []⟩ := by
  decide

/-- C3 (amended): a challenge matching `^[A-Za-z0-9_-]{1,128}$` as a full
match is answered 200 with body exactly the challenge; a challenge of 1–128
such characters followed by one trailing newline is also answered 200 and
echoed verbatim (Python's `$` matches before a final newline); every other
challenge — in particular any other challenge containing a character outside
the set — is answered 400. -/
theorem websub_get_challenge_spec (env : Env) (args : Option PyDict)
    (data : Option String) (headers : Option PyDict) (c : String)
    (hc : pyDictGet args "hub.challenge" = some c) (hne : c ≠ "") :
    (challengeCore c.data = true →
      handle_websub_callback env "GET" args data headers
        = ⟨c, 200, false, none, []⟩)
    ∧ (pyMatchChallenge c = true →
      handle_websub_callback env "GET" args data headers
        = ⟨c, 200, false, none, []⟩)
    ∧ (pyMatchChallenge c = false →
      handle_websub_callback env "GET" args data headers
        = ⟨"Invalid challenge", 400, false, none, []⟩)
    ∧ (pyMatchChallenge c = true ↔
      (challengeCore c.data = true ∨
        (c.data.getLast? = some '\n' ∧ challengeCore c.data.dropLast = true))) := by
  have hchar : ∀ b : Bool, pyMatchChallenge c = b →
      handle_websub_callback env "GET" args data headers
        = (if b then ⟨c, 200, false, none, []⟩
           else ⟨"Invalid challenge", 400, false, none, []⟩) := by
    intro b hb
    unfold handle_websub_callback
    rw [hc]
    cases b <;> simp [beq_iff_eq, hne, hb]
  refine ⟨?_, ?_, ?_, ?_⟩
  · intro hcore
    have : pyMatchChallenge c = true := by
      unfold pyMatchChallenge
      simp [hcore]
    simpa using hchar true this
  · intro hm
    simpa using hchar true hm
  · intro hm
    simpa using hchar false hm
  · unfold pyMatchChallenge
    by_cases hl : c.data.getLast? = some '\n' <;>
      simp [hl]

/-- Witness for C3 (amended) at concrete inputs: the valid challenge
`"tok-123"` is echoed with 200, and `"bad ch"` (containing a space) is
rejected with 400. -/
theorem websub_get_challenge_spec_witness :
    handle_websub_callback envFull "GET" (some [("hub.challenge", "tok-123")])
        none none = ⟨"tok-123", 200, false, none, []⟩
    ∧ handle_websub_callback envFull "GET" (some [("hub.challenge", "bad ch")])
        none none = ⟨"Invalid challenge", 400, false, none, []⟩ :=
  ⟨(websub_get_challenge_spec envFull (some [("hub.challenge", "tok-123")])
      none none "tok-123" (by decide) (by decide)).1 (by decide),
   (websub_get_challenge_spec envFull (some [("hub.challenge", "bad ch")])
      none none "bad ch" (by decide) (by decide)).2.2.1 (by decide)⟩

/-! ### C10 — the GET response depends only on the challenge parameter -/

/-- C10: two GET invocations whose `hub.challenge` lookups agree produce
identical outcomes, whatever the environment, body, headers, and the other
query parameters (`hub.mode`, `hub.topic`, …) are — so a denied/unsubscribe
verification is acknowledged exactly like a subscribe verification. -/
theorem websub_get_depends_only_on_challenge (env env' : Env)
    (args args' : Option PyDict) (data data' : Option String)
    (headers headers' : Option PyDict)
    (h : pyDictGet args "hub.challenge" = pyDictGet args' "hub.challenge") :
    handle_websub_callback env "GET" args data headers
      = handle_websub_callback env' "GET" args' data' headers' := by
  unfold handle_websub_callback
  rw [h]
  rfl

/-- Witness for C10 at concrete inputs: a `hub.mode=denied` GET and a
`hub.mode=subscribe, hub.topic=t` GET with the same challenge get the same
response. -/
theorem websub_get_depends_only_on_challenge_witness :
    handle_websub_callback envFull "GET"
        (some [("hub.challenge", "tok123"), ("hub.mode", "denied")]) none none
      = handle_websub_callback envBare "GET"
          (some [("hub.mode", "subscribe"), ("hub.challenge", "tok123"),
                 ("hub.topic", "t")]) (some "b") (some [("X", "y")]) :=
  websub_get_depends_only_on_challenge envFull envBare _ _ _ _ _ _ (by decide)

/-! ### C7 — response-status safety of the callback handler (corrected: one
POST input class raises an uncaught `TypeError` instead of responding) -/

/-- Every response the returned-response handler produces carries one of the
six statuses. -/
lemma handle_websub_callback_status_mem (env : Env) (method : String)
    (args : Option PyDict) (data : Option String)
    (headers : Option PyDict) :
    (handle_websub_callback env method args data headers).status
        ∈ ([200, 400, 401, 403, 503, 405] : List Nat) := by
  unfold handle_websub_callback
  repeat' split
  all_goals try simp
  repeat' split
  all_goals try simp

/-- C7 counterexample: a POST with configured secret and header `"sha1=é"`
makes the handler raise — `hmac.compare_digest` raises `TypeError` on the
non-ASCII digest, the verify call precedes the handler's `try` block, and no
except clause catches it — so the handler does not terminate without raising
with a status among 200/400/401/403/503/405 (a Flask deployment surfaces the
exception as a 500). -/
theorem websub_callback_raises_counterexample :
    strIsAscii "é" = false
    ∧ handle_websub_callback_run envFull "POST" none (some "body")
        (some [("X-Hub-Signature", "sha1=é")]) = PyRun.raised := by
  decide

/-- C7 (amended): the handler either returns a response whose status is one
of 200, 400, 401, 403, 503, 405 — never 500 from its own logic; any method
other than GET/POST gets 405, and a parse failure after a verification that
returns `true` still gets 200 `"OK"` — or it raises, which happens exactly
when a POST with configured secret and present signature header reaches the
digest comparison with a non-ASCII string, so that the uncaught `TypeError`
propagates (surfaced by a Flask deployment as a 500). -/
theorem websub_callback_safety_run (env : Env) (method : String)
    (args : Option PyDict) (data : Option String)
    (headers : Option PyDict) :
    (∀ out, handle_websub_callback_run env method args data headers
        = PyRun.ret out →
      out.status ∈ ([200, 400, 401, 403, 503, 405] : List Nat))
    ∧ (handle_websub_callback_run env method args data headers
          = PyRun.raised ↔
        (method = "POST" ∧ pyTruthyOpt env.webhookSecret = true ∧
          pyTruthyOpt (pyDictGet headers "X-Hub-Signature") = true ∧
          verify_webhook_signature_run env data
            ((pyDictGet headers "X-Hub-Signature").getD "") = PyRun.raised))
    ∧ (method ≠ "GET" → method ≠ "POST" →
        handle_websub_callback_run env method args data headers
          = PyRun.ret ⟨"Method not allowed", 405, false, none, []⟩)
    ∧ (∀ sig, method = "POST" → pyTruthyOpt env.webhookSecret = true →
        pyDictGet headers "X-Hub-Signature" = some sig → sig ≠ "" →
        verify_webhook_signature_run env data sig = PyRun.ret true →
        parse_youtube_notification env data = none →
        handle_websub_callback_run env method args data headers
          = PyRun.ret ⟨"OK", 200, true, none, []⟩) := by
  refine ⟨?_, ?_, ?_, ?_⟩
  · intro out hout
    rcases handle_websub_callback_run_agrees env method args data headers
        with hr | hr
    · rw [hr] at hout
      exact PyRun.noConfusion hout
    · rw [hr] at hout
      obtain rfl := (PyRun.ret.inj hout).symm
      exact handle_websub_callback_status_mem env method args data headers
  · unfold handle_websub_callback_run
    by_cases hg : method = "GET"
    · subst hg
      simp
    · by_cases hp : method = "POST"
      · subst hp
        simp only [beq_iff_eq, if_true, reduceIte, true_and]
        by_cases hsec : pyTruthyOpt env.webhookSecret
        · simp only [hsec, Bool.not_true, Bool.false_eq_true, if_false,
            true_and]
          by_cases hsig :
              pyTruthyOpt (pyDictGet headers "X-Hub-Signature") = true
          · simp only [hsig, Bool.not_true, Bool.false_eq_true, if_false,
              true_and]
            cases hv : verify_webhook_signature_run env data
                ((pyDictGet headers "X-Hub-Signature").getD "") with
            | raised => simp
            | ret b => cases b <;> simp
          · rw [Bool.not_eq_true] at hsig
            simp [hsig]
        · rw [Bool.not_eq_true] at hsec
          simp [hsec]
      · simp [beq_iff_eq, hg, hp]
  · intro h1 h2
    unfold handle_websub_callback_run
    simp [beq_iff_eq, h1, h2]
  · intro sig hm hsec hsig hne hver hparse
    subst hm
    unfold handle_websub_callback_run
    simp [beq_iff_eq, hsec, hsig, hne, hver, hparse]

/-- Witness for C7 (amended) at concrete inputs: a DELETE gets 405, and a
POST whose signature verifies but whose body is malformed XML (the abstract
parser yields `none`) gets 200 `"OK"`. -/
theorem websub_callback_safety_run_witness :
    handle_websub_callback_run ⟨some "s", fun _ _ => "d", fun _ => none⟩
        "DELETE" none none none
      = PyRun.ret ⟨"Method not allowed", 405, false, none, []⟩
    ∧ handle_websub_callback_run ⟨some "s", fun _ _ => "d", fun _ => none⟩
        "POST" none (some "<not-xml") (some [("X-Hub-Signature", "sha1=d")])
      = PyRun.ret ⟨"OK", 200, true, none, []⟩ :=
  ⟨(websub_callback_safety_run ⟨some "s", fun _ _ => "d", fun _ => none⟩
      "DELETE" none none none).2.2.1 (by decide) (by decide),
   (websub_callback_safety_run ⟨some "s", fun _ _ => "d", fun _ => none⟩
      "POST" none (some "<not-xml")
      (some [("X-Hub-Signature", "sha1=d")])).2.2.2 "sha1=d"
      rfl (by decide) (by decide) (by decide) (by decide) (by decide)⟩

/-! ### C4 — parser resilience (corrected: the URL fallback raises when both
the alternate link and the video id element are absent) -/

/-- C4 counterexample: a well-formed body whose entry element is found but
has no sub-elements at all parses to `none`, not to a non-null all-placeholder
record: with both the alternate link and the video id element absent, the
fallback `f"https://www.youtube.com/watch?v={video_id.text}"` evaluates
`None.text`, raising `AttributeError`, and the catch-all handler returns
`None`. -/
theorem parse_all_fields_missing_counterexample :
    envBare.fromstring "<feed><entry/></feed>" = some rootBareEntry
    ∧ (findChild rootBareEntry atomNS "entry").isSome = true
    ∧ parse_youtube_notification envBare (some "<feed><entry/></feed>")
        = none :=
  ⟨rfl, rfl, rfl⟩

/-- C4 (amended): for a well-formed body, the parse result is non-null
exactly when the entry element is found and at least one of the alternate
link or the video id element is present (when both are absent the caught
`AttributeError` yields null); and on every non-null result the other four
sub-fields have degraded independently to their `"Unknown"`/`"No title"`
placeholders exactly as the guarded extraction prescribes. -/
theorem parse_youtube_notification_spec (env : Env) (body : String)
    (root : XElem) (hfs : env.fromstring body = some root) :
    ((parse_youtube_notification env (some body)).isSome = true ↔
      ∃ e, findChild root atomNS "entry" = some e ∧
        ((findChildAttr e atomNS "link" "rel" "alternate").isSome = true ∨
         (findChild e ytNS "videoId").isSome = true))
    ∧ (∀ e, findChild root atomNS "entry" = some e →
        ∀ v, parse_youtube_notification env (some body) = some v →
          v.video_id = textOr (findChild e ytNS "videoId") "Unknown" ∧
          v.title = textOr (findChild e atomNS "title") "No title" ∧
          v.channel = textOr (findPath2 e atomNS "author" atomNS "name")
              "Unknown" ∧
          v.published = textOr (findChild e atomNS "published") "Unknown") := by
  have hpe : parse_youtube_notification env (some body) = parse_entry root := by
    simp [parse_youtube_notification, hfs]
  rw [hpe]
  constructor
  · cases hentry : findChild root atomNS "entry" with
    | none => simp [parse_entry, hentry]
    | some e =>
      cases hlink : findChildAttr e atomNS "link" "rel" "alternate" with
      | some l => simp [parse_entry, hentry, hlink]
      | none =>
        cases hvid : findChild e ytNS "videoId" with
        | some v => simp [parse_entry, hentry, hlink, hvid]
        | none => simp [parse_entry, hentry, hlink, hvid]
  · intro e hentry v hv
    simp only [parse_entry, hentry] at hv
    cases hlink : findChildAttr e atomNS "link" "rel" "alternate" with
    | some l =>
      simp only [hlink] at hv
      obtain rfl := (Option.some.inj hv).symm
      exact ⟨rfl, rfl, rfl, rfl⟩
    | none =>
      cases hvid : findChild e ytNS "videoId" with
      | some w =>
        simp only [hlink, hvid] at hv
        obtain rfl := (Option.some.inj hv).symm
        exact ⟨rfl, rfl, rfl, rfl⟩
      | none =>
        simp [hlink, hvid] at hv

/-- Witness for C4 (amended) at concrete inputs: the fully populated feed
parses to a non-null record. -/
theorem parse_youtube_notification_spec_witness :
    (parse_youtube_notification envFull (some "xml")).isSome = true :=
  ((parse_youtube_notification_spec envFull "xml" rootFull rfl).1).mpr
    ⟨fullEntryX, rfl, Or.inl rfl⟩

/-! ### C9 — the parser is a deterministic pure function -/

/-- C9: parsing the same body twice yields structurally identical results —
both null, or two records equal field by field.  The embedding is a pure
function of the environment and the body; the Python source reads no mutable
state besides the logging side channel. -/
theorem parse_youtube_notification_deterministic (env : Env)
    (xml_data : Option String) :
    parse_youtube_notification env xml_data
        = parse_youtube_notification env xml_data
    ∧ (∀ v w, parse_youtube_notification env xml_data = some v →
        parse_youtube_notification env xml_data = some w →
        v.video_id = w.video_id ∧ v.title = w.title ∧ v.url = w.url ∧
        v.channel = w.channel ∧ v.published = w.published) := by
  refine ⟨rfl, ?_⟩
  intro v w hv hw
  rw [hv] at hw
  obtain rfl := Option.some.inj hw
  exact ⟨rfl, rfl, rfl, rfl, rfl⟩

/-- Witness for C9 at concrete inputs: both parses of the exemplar body under
`envFull` yield `vidFull`, and the field-by-field equalities follow. -/
theorem parse_youtube_notification_deterministic_witness :
    vidFull.video_id = vidFull.video_id ∧ vidFull.title = vidFull.title ∧
    vidFull.url = vidFull.url ∧ vidFull.channel = vidFull.channel ∧
    vidFull.published = vidFull.published :=
  (parse_youtube_notification_deterministic envFull (some "xml")).2
    vidFull vidFull (by decide) (by decide)

/-! ### C5 — dispatch after a verified, parsed POST (corrected: the dispatch
call is commented out in the source) -/

/-- C5 counterexample: a POST that passes all signature gates and parses to
the non-null event `vidFull` produces an empty dispatch trace — the handler
never invokes `trigger_video_processing_workflow`, whose call is commented
out (`src/scripts/testing.py` line 312) — contradicting the claim that the
dispatcher is invoked with that event. -/
theorem websub_post_no_dispatch_counterexample :
    handle_websub_callback envFull "POST" none (some "body")
        (some [("X-Hub-Signature", "sha1=d")])
      = ⟨"OK", 200, true, some vidFull, []⟩
    ∧ ([] : List VideoData) ≠ [vidFull] :=
  ⟨by decide, by decide⟩

/-- C5 (amended): for every POST that passes the signature gates and whose
body parses to a non-null Video Event, the handler logs the event but does
not invoke the Downstream Dispatcher (the
`trigger_video_processing_workflow` call is commented out in the source:
the dispatch trace is empty), and the terminal response is 200 `"OK"`
regardless. -/
theorem websub_post_verified_no_dispatch (env : Env) (args : Option PyDict)
    (data : Option String) (headers : Option PyDict) (sig : String)
    (v : VideoData) (hsec : pyTruthyOpt env.webhookSecret = true)
    (hsig : pyDictGet headers "X-Hub-Signature" = some sig) (hne : sig ≠ "")
    (hver : verify_webhook_signature env data sig = true)
    (hp : parse_youtube_notification env data = some v) :
    handle_websub_callback env "POST" args data headers
      = ⟨"OK", 200, true, some v, []⟩ := by
  unfold handle_websub_callback
  simp [beq_iff_eq, hsec, hsig, hne, hver, hp]

/-- Witness for C5 (amended) at concrete inputs: the exemplar verified POST
yields 200 `"OK"` with an empty dispatch trace. -/
theorem websub_post_verified_no_dispatch_witness :
    handle_websub_callback envFull "POST" none (some "body")
        (some [("X-Hub-Signature", "sha1=d")])
      = ⟨"OK", 200, true, some vidFull, []⟩ :=
  websub_post_verified_no_dispatch envFull none (some "body")
    (some [("X-Hub-Signature", "sha1=d")]) "sha1=d" vidFull
    (by decide) (by decide) (by decide) (by decide) (by decide)

/-! ### C6 — the dispatcher's video-id allow-list guard -/

/-- C6: `trigger_video_processing_workflow` returns without any outbound
call (no token exchange, no dispatch POST) whenever the video id is empty,
`"Unknown"`, contains a character outside `[A-Za-z0-9_-]`, or has length
outside 6–20; and a dispatch POST for a payload `p` occurs only when the
video id passes the allow-list pattern and `p` is the given record. -/
theorem trigger_video_processing_workflow_guard (genv : GithubEnv)
    (vd : VideoData) :
    ((vd.video_id = "" ∨ vd.video_id = "Unknown" ∨
      (∃ ch ∈ vd.video_id.data, isIdChar ch = false) ∨
      vd.video_id.data.length < 6 ∨ 20 < vd.video_id.data.length) →
      trigger_video_processing_workflow genv (some vd) = [])
    ∧ (∀ p, OutCall.dispatchPost p
          ∈ trigger_video_processing_workflow genv (some vd) →
        valid_video_id vd.video_id = true ∧ p = vd) := by
  constructor
  · intro h
    by_cases hu : vd.video_id = "Unknown"
    · simp [trigger_video_processing_workflow, hu]
    · have hvalid : valid_video_id vd.video_id = false := by
        rw [Bool.eq_false_iff]
        intro hv
        unfold valid_video_id fullmatchVideoId at hv
        rw [Bool.and_eq_true, Bool.and_eq_true] at hv
        obtain ⟨⟨hall, h6⟩, h20⟩ := hv
        rw [List.all_eq_true] at hall
        rw [decide_eq_true_eq] at h6 h20
        rcases h with h1 | h1 | h1 | h1 | h1
        · rw [h1] at h6
          exact absurd h6 (by decide)
        · exact hu h1
        · obtain ⟨ch, hmem, hch⟩ := h1
          rw [hall ch hmem] at hch
          exact Bool.noConfusion hch
        · omega
        · omega
      simp [trigger_video_processing_workflow, beq_iff_eq, hu, hvalid]
  · intro p hp
    by_cases hu : vd.video_id = "Unknown"
    · simp [trigger_video_processing_workflow, hu] at hp
    · by_cases hval : valid_video_id vd.video_id
      · refine ⟨hval, ?_⟩
        simp only [trigger_video_processing_workflow, get_dispatch_token,
          beq_iff_eq, hu, hval, if_false, Bool.not_true, ite_false] at hp
        by_cases hcfg : (!pyTruthyOpt genv.appId
            || !pyTruthyOpt genv.installationId
            || !pyTruthyOpt (load_private_key genv)) = true
        · simp [hcfg] at hp
        · rw [Bool.not_eq_true] at hcfg
          cases htok : genv.tokenResult with
          | none => simp [hcfg, htok] at hp
          | some t =>
            simp [hcfg, htok] at hp
            exact hp
      · rw [Bool.not_eq_true] at hval
        simp [trigger_video_processing_workflow, hu, hval] at hp

/-- Witness for C6 at concrete inputs: with a fully configured GitHub
environment, a record whose id contains a space triggers zero outbound
calls. -/
theorem trigger_video_processing_workflow_guard_witness :
    trigger_video_processing_workflow ⟨some "a", some "i", some "k", some "t"⟩
        (some ⟨"ab c12", "t", some "u", "c", "p"⟩) = [] :=
  (trigger_video_processing_workflow_guard
      ⟨some "a", some "i", some "k", some "t"⟩
      ⟨"ab c12", "t", some "u", "c", "p"⟩).1
    (Or.inr (Or.inr (Or.inl ⟨' ', by decide, by decide⟩)))

/-! ### C8 — the subscription manager -/

lemma hubSuccess_iff (r : HubResult) :
    hubSuccess r = true ↔ r = HubResult.status 202 := by
  cases r with
  | status c =>
    simp only [hubSuccess, beq_iff_eq, HubResult.status.injEq]
  | exc => simp [hubSuccess]

lemma subscribeLoop_trace (hub : Nat → HubResult) :
    ∀ (chans : List Channel) (i : Nat) (acc : Bool),
      (subscribeLoop hub chans i acc).1
        = (List.range' i chans.length).map hub := by
  intro chans
  induction chans with
  | nil => intro i acc; simp [subscribeLoop]
  | cons c rest ih =>
    intro i acc
    simp [subscribeLoop, List.range'_succ, ih]

lemma subscribeLoop_flag (hub : Nat → HubResult) :
    ∀ (chans : List Channel) (i : Nat) (acc : Bool),
      (subscribeLoop hub chans i acc).2
        = (acc &&
            (List.range' i chans.length).all fun k => hubSuccess (hub k)) := by
  intro chans
  induction chans with
  | nil => intro i acc; simp [subscribeLoop]
  | cons c rest ih =>
    intro i acc
    simp only [subscribeLoop, ih, List.range'_succ, List.length_cons,
      List.all_cons]
    cases hubSuccess (hub i) <;> cases acc <;> simp

lemma filter_fail_nil (hub : Nat → HubResult) :
    ∀ (n s : Nat), (∀ i, s ≤ i → i < s + n → hubSuccess (hub i) = true) →
      ((List.range' s n).map hub).filter (fun r => !hubSuccess r) = [] := by
  intro n
  induction n with
  | zero => intro s _; simp
  | succ m ih =>
    intro s hsucc
    rw [List.range'_succ]
    simp only [List.map_cons, List.filter_cons]
    rw [hsucc s (Nat.le_refl s) (by omega)]
    simpa using ih (s + 1) (fun i h1 h2 => hsucc i (by omega) (by omega))

lemma filter_fail_one (hub : Nat → HubResult) :
    ∀ (n s j : Nat), s ≤ j → j < s + n → hubSuccess (hub j) = false →
      (∀ i, s ≤ i → i < s + n → i ≠ j → hubSuccess (hub i) = true) →
      (((List.range' s n).map hub).filter
          (fun r => !hubSuccess r)).length = 1 := by
  intro n
  induction n with
  | zero => intro s j h1 h2; omega
  | succ m ih =>
    intro s j h1 h2 hfail hsucc
    rw [List.range'_succ]
    simp only [List.map_cons, List.filter_cons]
    by_cases hsj : j = s
    · subst hsj
      rw [hfail]
      simp only [Bool.not_false, if_true]
      rw [filter_fail_nil hub m (j + 1)
        (fun i hi1 hi2 => hsucc i (by omega) (by omega) (by omega))]
      rfl
    · rw [hsucc s (Nat.le_refl s) (by omega) (fun h => hsj h.symm)]
      simpa using ih (s + 1) j (by omega) (by omega) hfail
        (fun i hi1 hi2 hij => hsucc i (by omega) (by omega) hij)

/-- C8: with the secret unconfigured, `subscribe_to_youtube_channels` returns
`false` having issued no hub request; otherwise it attempts exactly one
request per configured channel in order with no early abort, counts a topic
as succeeded exactly when the hub answers HTTP 202 (any other status, or an
exception, fails that topic alone), returns `true` iff every topic
succeeded, and when the hub accepts all but one topic exactly one request is
marked failed and the overall result is `false`. -/
theorem subscribe_to_youtube_channels_spec (webhookSecret : Option String)
    (hub : Nat → HubResult) :
    (pyTruthyOpt webhookSecret = false →
      subscribe_to_youtube_channels webhookSecret hub = ([], false))
    ∧ (pyTruthyOpt webhookSecret = true →
        (subscribe_to_youtube_channels webhookSecret hub).1
            = (List.range' 0 channels_to_subscribe.length).map hub
        ∧ ((subscribe_to_youtube_channels webhookSecret hub).2 = true ↔
            ∀ i, i < channels_to_subscribe.length →
              hub i = HubResult.status 202)
        ∧ (∀ j, j < channels_to_subscribe.length →
            hub j ≠ HubResult.status 202 →
            (∀ i, i < channels_to_subscribe.length → i ≠ j →
              hub i = HubResult.status 202) →
            ((subscribe_to_youtube_channels webhookSecret hub).1.filter
                (fun r => !hubSuccess r)).length = 1
            ∧ (subscribe_to_youtube_channels webhookSecret hub).2 = false)) := by
  constructor
  · intro hsec
    unfold subscribe_to_youtube_channels
    simp [hsec]
  · intro hsec
    have hsub : subscribe_to_youtube_channels webhookSecret hub
        = subscribeLoop hub channels_to_subscribe 0 true := by
      unfold subscribe_to_youtube_channels
      simp [hsec]
    refine ⟨?_, ?_, ?_⟩
    · rw [hsub, subscribeLoop_trace]
    · rw [hsub, subscribeLoop_flag]
      simp only [Bool.true_and, List.all_eq_true]
      constructor
      · intro hall i hi
        have := hall i (by
          rw [List.mem_range'_1]
          omega)
        exact (hubSuccess_iff (hub i)).mp this
      · intro hall i hi
        rw [List.mem_range'_1] at hi
        exact (hubSuccess_iff (hub i)).mpr (hall i (by omega))
    · intro j hj hfail hsucc
      constructor
      · rw [hsub, subscribeLoop_trace]
        exact filter_fail_one hub channels_to_subscribe.length 0 j
          (Nat.zero_le j) (by omega)
          (by
            rw [Bool.eq_false_iff]
            intro hc
            exact hfail ((hubSuccess_iff (hub j)).mp hc))
          (fun i h1 h2 hij => (hubSuccess_iff (hub i)).mpr
            (hsucc i (by omega) hij))
      · rw [hsub, subscribeLoop_flag]
        simp only [Bool.true_and]
        rw [Bool.eq_false_iff]
        intro hc
        rw [List.all_eq_true] at hc
        have := hc j (by rw [List.mem_range'_1]; omega)
        exact hfail ((hubSuccess_iff (hub j)).mp this)

/-- Witness for C8 at concrete inputs: with a configured secret and a hub
accepting every topic except the fourth (HTTP 500 there), exactly one of the
eleven attempted requests is marked failed and the overall result is
`false`. -/
theorem subscribe_to_youtube_channels_spec_witness :
    ((subscribe_to_youtube_channels (some "s")
        (fun i => if i = 3 then HubResult.status 500
                  else HubResult.status 202)).1.filter
      (fun r => !hubSuccess r)).length = 1
    ∧ (subscribe_to_youtube_channels (some "s")
        (fun i => if i = 3 then HubResult.status 500
                  else HubResult.status 202)).2 = false :=
  ((subscribe_to_youtube_channels_spec (some "s")
      (fun i => if i = 3 then HubResult.status 500
                else HubResult.status 202)).2 (by decide)).2.2 3
    (by decide) (by decide) (by decide)

end Portfolio
